import Mathlib

/-!
Shallow embedding of the PyForge CLI core (error taxonomy, validation
layer, and the init subcommand) together with theorems checking the
natural-language specification against it.

Source files embedded: src/rust/src/core/error.rs,
src/rust/src/cli/commands/init.rs.

Conventions: fallible Rust functions returning Result<()> become
Except PyForgeError Unit; stdout/stderr writes become lists of the
printed lines (colour codes dropped, as the rendering is specified
colourlessly); the filesystem is passed explicitly as a path-existence
predicate; apostrophes inside string literals are written with the
escape \x27.
-/

namespace PyForge

/--
A dynamically typed error value as seen through the std Error trait: a
display message plus at most one deeper cause. A `leaf` has no cause; a
`node` wraps exactly one inner error, mirroring the fact that the
`source` method returns at most one underlying error.
-/
inductive DynError : Type where
  | leaf (message : String)
  | node (message : String) (inner : DynError)
deriving DecidableEq

/-- The display message of a dynamic error (its `to_string()`). -/
def DynError.message : DynError → String
  | .leaf m => m
  | .node m _ => m

/-- The `source()` of a dynamic error: the wrapped inner error, if any. -/
def DynError.src : DynError → Option DynError
  | .leaf _ => none
  | .node _ e => some e

/-- The messages of an error and of each of its successive sources,
starting at the error itself and ending at the root cause. -/
def DynError.chainMessages : DynError → List String
  | .leaf m => [m]
  | .node m e => m :: e.chainMessages

/-- The lines the display loop of error.rs prints for an error chain:
one `"  - <message>"` line per error, walking `source()` repeatedly. -/
def DynError.causedByLines : DynError → List String
  | .leaf m => ["  - " ++ m]
  | .node m e => ("  - " ++ m) :: e.causedByLines

/-- The kind of an `io::Error`, as matched by the From conversion in
error.rs: `NotFound`, `PermissionDenied`, or any other kind. -/
inductive IOErrorKind : Type where
  | notFound
  | permissionDenied
  | otherKind (tag : String)
deriving DecidableEq

/-- An `io::Error`: a kind plus the dynamic-error view of the value
(display message and optional deeper cause). -/
structure IoError : Type where
  kind : IOErrorKind
  err : DynError
deriving DecidableEq

/-- A `reqwest::Error`, reduced to its dynamic-error view. -/
structure ReqwestError : Type where
  err : DynError
deriving DecidableEq

/-- A `serde_json::Error`, reduced to its display message. -/
structure SerdeJsonError : Type where
  message : String
deriving DecidableEq

/-- A `toml::de::Error`, reduced to its display message. -/
structure TomlDeError : Type where
  message : String
deriving DecidableEq

/-- The PyForgeError enum of error.rs: the closed taxonomy, one
constructor per variant, fields as in the source. -/
inductive PyForgeError : Type where
  | FileError (message : String) (src : Option IoError)
  | DirectoryNotFound (path : String)
  | PermissionDenied (path : String) (reason : String)
  | ProjectAlreadyExists (name : String) (path : String)
  | NotAPythonProject
  | InvalidConfig (file : String) (src : DynError)
  | CommandFailed (command : String) (code : Int)
  | CommandNotFound (command : String)
  | CommandTimeout (command : String) (timeout : Nat)
  | InvalidProjectName (name : String) (reason : String)
  | UnsupportedPythonVersion (version : String)
  | TemplateNotFound (template : String)
  | NetworkError (message : String) (src : Option ReqwestError)
  | DownloadFailed (url : String) (status : String)
  | ParseError (file_type : String) (message : String)
  | InvalidJson (file : String) (message : String)
  | InvalidToml (file : String) (message : String)
  | Internal (message : String)
  | UserCancelled
  | NotImplemented (feature : String)
deriving DecidableEq

namespace PyForgeError

/-- `is_recoverable` of error.rs: true exactly for NetworkError,
CommandTimeout and UserCancelled. -/
def is_recoverable : PyForgeError → Bool
  | NetworkError _ _ => true
  | CommandTimeout _ _ => true
  | UserCancelled => true
  | _ => false

/-- `exit_code` of error.rs: the fixed variant-to-code mapping, with a
catch-all arm returning 1. -/
def exit_code : PyForgeError → Int
  | UserCancelled => 130
  | CommandNotFound _ => 127
  | PermissionDenied _ _ => 126
  | FileError _ _ => 2
  | InvalidProjectName _ _ => 64
  | NotAPythonProject => 65
  | _ => 1

/-- The Display rendering of each variant, from the thiserror format
strings on the enum in error.rs. -/
def toMessage : PyForgeError → String
  | FileError m _ => "File error: " ++ m
  | DirectoryNotFound p => "Directory \x27" ++ p ++ "\x27 not found"
  | PermissionDenied p r => "Cannot write to \x27" ++ p ++ "\x27: " ++ r
  | ProjectAlreadyExists n p =>
      "Project \x27" ++ n ++ "\x27 already exists at \x27" ++ p ++ "\x27"
  | NotAPythonProject => "No valid Python project detected in current directory"
  | InvalidConfig f _ => "Invalid configuration file: " ++ f
  | CommandFailed c k =>
      "Command \x27" ++ c ++ "\x27 failed with exit code " ++ toString k
  | CommandNotFound c => "Command not found: \x27" ++ c ++ "\x27"
  | CommandTimeout c t =>
      "Timeout executing: \x27" ++ c ++ "\x27 (expected " ++ toString t ++ "s)"
  | InvalidProjectName n r => "Invalid project name: \x27" ++ n ++ "\x27. " ++ r
  | UnsupportedPythonVersion v => "Unsupported Python version: " ++ v
  | TemplateNotFound t => "Template \x27" ++ t ++ "\x27 not found"
  | NetworkError m _ => "Network error: " ++ m
  | DownloadFailed u s => "Failed to download from \x27" ++ u ++ "\x27: " ++ s
  | ParseError t m => "Error parsing " ++ t ++ ": " ++ m
  | InvalidJson f m => "Invalid JSON in \x27" ++ f ++ "\x27: " ++ m
  | InvalidToml f m => "Invalid TOML in \x27" ++ f ++ "\x27: " ++ m
  | Internal m => "Internal error: " ++ m
  | UserCancelled => "Operation cancelled by user"
  | NotImplemented f => "Feature not implemented: " ++ f

/-- The `source()` of a taxonomy error, from the #[source] attributes on
the enum: only FileError, InvalidConfig and NetworkError attach one. -/
def source : PyForgeError → Option DynError
  | FileError _ s => s.map IoError.err
  | InvalidConfig _ s => some s
  | NetworkError _ s => s.map ReqwestError.err
  | _ => none

/-- The variants display_error gives a bespoke suggestion arm to, per
the match in error.rs. -/
def hasBespokeGuidance : PyForgeError → Bool
  | ProjectAlreadyExists _ _ => true
  | NotAPythonProject => true
  | CommandNotFound _ => true
  | InvalidProjectName _ _ => true
  | _ => false

/-- The causal source chain of an error: message of the direct source,
then of its source, and so on down to the root cause. Empty when the
error attaches no source. -/
def sourceChain (e : PyForgeError) : List String :=
  match e.source with
  | none => []
  | some s => s.chainMessages

/-- `display_error` of error.rs as the list of stderr lines it prints:
four variants get bespoke suggestion text, every other variant gets the
generic error line and, when a source is attached, a Caused by: header
followed by one line per error of the chain, walking `source()` until
it is exhausted. -/
def display_error (e : PyForgeError) : List String :=
  match e with
  | ProjectAlreadyExists name path =>
      ["❌ Error: " ++ e.toMessage,
       "💡 Suggestion: rm -rf " ++ path ++ " && pyforge init " ++ name]
  | NotAPythonProject =>
      ["❌ Error: " ++ e.toMessage,
       "💡 Suggestion: Run \x27pyforge init <name>\x27 to create a new project"]
  | CommandNotFound command =>
      ["❌ Error: " ++ e.toMessage,
       "💡 Suggestion: Install " ++ command ++ " or make sure it\x27s in your PATH"]
  | InvalidProjectName _ _ =>
      ["❌ Error: " ++ e.toMessage,
       "💡 Suggestion: Names must be valid Python package names",
       "   Valid examples: my_project, awesome-tool, PyProject2024"]
  | _ =>
      ("❌ Error: " ++ e.toMessage) ::
        (match e.source with
         | none => []
         | some s => "Caused by:" :: s.causedByLines)

end PyForgeError

/-- The rendering claimed for variants without bespoke guidance, read
literally: the generic error line, the Caused by: header, then the
chain listed from the innermost construction (the root cause, the most
deeply nested error) outward to the direct cause. Stated from the
specification text, to be compared with display_error. -/
def renderChainInnermostFirst (e : PyForgeError) : List String :=
  ["❌ Error: " ++ e.toMessage, "Caused by:"] ++
    (e.sourceChain.reverse.map (fun m => "  - " ++ m))

/-- The From conversion from io::Error in error.rs: dispatch on the
error kind. -/
def fromIoError (err : IoError) : PyForgeError :=
  match err.kind with
  | .notFound => .FileError "File or directory not found" (some err)
  | .permissionDenied => .PermissionDenied "unknown" "Permission denied"
  | .otherKind _ => .FileError "I/O error" (some err)

/-- The From conversion from reqwest::Error in error.rs. -/
def fromReqwestError (err : ReqwestError) : PyForgeError :=
  .NetworkError "HTTP connection error" (some err)

/-- The From conversion from serde_json::Error in error.rs. -/
def fromSerdeJsonError (err : SerdeJsonError) : PyForgeError :=
  .ParseError "JSON" err.message

/-- The From conversion from toml::de::Error in error.rs. -/
def fromTomlDeError (err : TomlDeError) : PyForgeError :=
  .ParseError "TOML" err.message

namespace validation

/-- The reserved project names of validate_project_name. -/
def reservedNames : List String := ["test", "tests", "lib", "src", "build", "dist"]

/-- Rust str::to_lowercase, modelled character by character (every name
the reserved-word check can reach is ASCII, where the two agree). -/
def toLowercase (s : String) : String := ⟨s.data.map Char.toLower⟩

/-- Rust str::starts_with: the first string begins with the second. -/
def startsWith (s p : String) : Bool := p.data.isPrefixOf s.data

/-- Membership in the regex character class [a-zA-Z0-9_-]. -/
def nameCharOk (c : Char) : Bool := c.isAlpha || c.isDigit || c == '_' || c == '-'

/-- Whether the whole string matches the anchored regex of
validate_project_name: a letter first, then letters, digits, hyphens
and underscores. -/
def matchesNamePattern (s : String) : Bool :=
  match s.data with
  | [] => false
  | c :: cs => c.isAlpha && cs.all nameCharOk

/-- `validation::validate_project_name` of error.rs: the four checks in
source order. The length check counts bytes, as the len method of a
Rust str does. -/
def validate_project_name (name : String) : Except PyForgeError Unit :=
  if name.isEmpty then
    .error (.InvalidProjectName name "Name cannot be empty")
  else if name.utf8ByteSize > 50 then
    .error (.InvalidProjectName name "Name is too long (maximum 50 characters)")
  else if !matchesNamePattern name then
    .error (.InvalidProjectName name
      "Only letters, numbers, hyphens and underscores. Must start with letter")
  else if reservedNames.contains (toLowercase name) then
    .error (.InvalidProjectName name ("\x27" ++ name ++ "\x27 is a reserved word"))
  else
    .ok ()

/-- The marker files `validation::ensure_python_project` looks for. -/
def pythonProjectIndicators : List String :=
  ["setup.py", "pyproject.toml", "requirements.txt", "Pipfile"]

/-- `validation::ensure_python_project` of error.rs, over an explicit
path-existence predicate standing for the current working directory. -/
def ensure_python_project (pathExists : String → Bool) : Except PyForgeError Unit :=
  if pythonProjectIndicators.any pathExists then .ok ()
  else .error .NotAPythonProject

/-- The supported major.minor prefixes of validate_python_version. -/
def valid_versions : List String := ["3.8", "3.9", "3.10", "3.11", "3.12"]

/-- `validation::validate_python_version` of error.rs: a prefix test
against the supported version list. -/
def validate_python_version (version : String) : Except PyForgeError Unit :=
  if valid_versions.any (fun v => startsWith version v) then .ok ()
  else .error (.UnsupportedPythonVersion version)

end validation

/-- What one run of the init subcommand produces: the stdout lines in
print order, and the returned result. -/
structure InitOutcome : Type where
  stdout : List String
  result : Except PyForgeError Unit

/-- `init::run` of init.rs: print two lines, validate the name, check
for a path collision, and on success print the two colored lines. The
template argument is accepted and never used, as in the source. -/
def initRun (name : String) (_template : Option String)
    (pathExists : String → Bool) : InitOutcome :=
  let pre : List String :=
    ["🚀 Creating project: " ++ name, "Project created successfully"]
  match validation.validate_project_name name with
  | .error e => ⟨pre, .error e⟩
  | .ok _ =>
    if pathExists name then
      ⟨pre, .error (.ProjectAlreadyExists name name)⟩
    else
      ⟨pre ++ ["🚀 Creating project: " ++ name,
               "✅ Project \x27" ++ name ++ "\x27 created successfully!"],
       .ok ()⟩

end PyForge

namespace PyForge

/-! Helper lemmas about characters, byte sizes and strings. -/

theorem utf8go_nil : String.utf8ByteSize.go [] = 0 := rfl

theorem utf8go_cons (c : Char) (cs : List Char) :
    String.utf8ByteSize.go (c :: cs) = String.utf8ByteSize.go cs + c.utf8Size := rfl

theorem nameCharOk_toNat {c : Char} (h : validation.nameCharOk c = true) :
    c.toNat ≤ 127 := by
  simp [validation.nameCharOk, Char.isAlpha, Char.isUpper, Char.isLower,
    Char.isDigit] at h
  rcases h with (((⟨_, h⟩ | ⟨_, h⟩) | ⟨_, h⟩) | rfl) | rfl
  · exact le_trans (show c.toNat ≤ (90 : UInt32).toNat from h) (by decide)
  · exact le_trans (show c.toNat ≤ (122 : UInt32).toNat from h) (by decide)
  · exact le_trans (show c.toNat ≤ (57 : UInt32).toNat from h) (by decide)
  · decide
  · decide

theorem utf8Size_of_nameCharOk {c : Char} (h : validation.nameCharOk c = true) :
    c.utf8Size = 1 := by
  have h' : c.val ≤ (127 : UInt32) :=
    show c.val.toNat ≤ (127 : UInt32).toNat from nameCharOk_toNat h
  simp [Char.utf8Size]
  intro hlt
  exact absurd h' (by simpa using hlt)

theorem utf8go_eq_length {l : List Char}
    (h : ∀ c ∈ l, validation.nameCharOk c = true) :
    String.utf8ByteSize.go l = l.length := by
  induction l with
  | nil => rfl
  | cons c cs ih =>
      rw [utf8go_cons, ih (fun x hx => h x (List.mem_cons_of_mem _ hx)),
        utf8Size_of_nameCharOk (h c (List.mem_cons_self _ _)), List.length_cons]

theorem length_le_utf8ByteSize (s : String) : s.length ≤ s.utf8ByteSize := by
  obtain ⟨l⟩ := s
  show l.length ≤ String.utf8ByteSize.go l
  induction l with
  | nil => exact Nat.le_refl 0
  | cons c cs ih =>
      rw [utf8go_cons, List.length_cons]
      have := Char.utf8Size_pos c
      omega

theorem length_eq_zero_iff {s : String} : s.length = 0 ↔ s = "" := by
  rw [String.ext_iff]
  obtain ⟨l⟩ := s
  show l.length = 0 ↔ l = ("" : String).data
  show l.length = 0 ↔ l = []
  simp

theorem utf8ByteSize_eq_length_of_matches {s : String}
    (h : validation.matchesNamePattern s = true) : s.utf8ByteSize = s.length := by
  obtain ⟨l⟩ := s
  show String.utf8ByteSize.go l = l.length
  cases l with
  | nil => simp [validation.matchesNamePattern] at h
  | cons c cs =>
      simp [validation.matchesNamePattern] at h
      rw [utf8go_cons, utf8go_eq_length h.2,
        utf8Size_of_nameCharOk (by simp [validation.nameCharOk, h.1]),
        List.length_cons]

theorem contains_false_iff (l : List String) (a : String) :
    (l.contains a = false) ↔ a ∉ l := by
  rw [show l.contains a = l.elem a from rfl]
  rw [← Bool.not_eq_true, List.elem_iff]

theorem isEmpty_false_iff (s : String) : s.isEmpty = false ↔ s ≠ "" := by
  rw [← Bool.not_eq_true, String.isEmpty_iff]

theorem validate_ok_iff_checks (name : String) :
    validation.validate_project_name name = .ok () ↔
      (name.isEmpty = false ∧ name.utf8ByteSize ≤ 50 ∧
       validation.matchesNamePattern name = true ∧
       validation.reservedNames.contains (validation.toLowercase name) = false) := by
  unfold validation.validate_project_name
  by_cases h1 : name.isEmpty
  · simp [h1]
  · by_cases h2 : name.utf8ByteSize > 50
    · simp [h1, h2]
    · by_cases h3 : validation.matchesNamePattern name
      · by_cases h4 : validation.reservedNames.contains (validation.toLowercase name)
        · simp [h1, h2, h3, h4]
          exact fun hm => absurd (by simpa using h4) hm
        · simp [h1, h2, h3, h4]
          omega
      · simp [h1, h2, h3]

/-- C2: validate_project_name succeeds exactly on names that are
non-empty, at most 50 characters long, match the anchored pattern of a
letter followed by letters, digits, underscores and hyphens, and whose
lowercase form is not reserved; and every string of length 0 or above
50 fails with an InvalidProjectName error carrying the name. -/
theorem validate_project_name_spec :
    (∀ name : String,
        validation.validate_project_name name = .ok () ↔
          (name ≠ "" ∧ name.length ≤ 50 ∧
           validation.matchesNamePattern name = true ∧
           validation.toLowercase name ∉ validation.reservedNames)) ∧
    (∀ name : String, name.length = 0 ∨ 50 < name.length →
        ∃ reason, validation.validate_project_name name =
          .error (.InvalidProjectName name reason)) := by
  constructor
  · intro name
    rw [validate_ok_iff_checks]
    constructor
    · rintro ⟨h1, h2, h3, h4⟩
      refine ⟨(isEmpty_false_iff name).1 h1, ?_, h3,
        (contains_false_iff _ _).1 h4⟩
      rw [← utf8ByteSize_eq_length_of_matches h3]
      exact h2
    · rintro ⟨h1, h2, h3, h4⟩
      refine ⟨(isEmpty_false_iff name).2 h1, ?_, h3,
        (contains_false_iff _ _).2 h4⟩
      rw [utf8ByteSize_eq_length_of_matches h3]
      exact h2
  · intro name h
    rcases h with h | h
    · have : name = "" := length_eq_zero_iff.1 h
      subst this
      exact ⟨"Name cannot be empty", rfl⟩
    · have hne : name.isEmpty = false := by
        rw [isEmpty_false_iff]
        intro he
        subst he
        simp at h
      have hutf : name.utf8ByteSize > 50 :=
        lt_of_lt_of_le h (length_le_utf8ByteSize name)
      refine ⟨"Name is too long (maximum 50 characters)", ?_⟩
      unfold validation.validate_project_name
      simp [hne, hutf]

/-- C9: a name that passes the emptiness, length and pattern checks but
whose lowercase form is reserved is rejected with InvalidProjectName,
and the reason text quotes the offending word. -/
theorem validate_project_name_reserved (name : String)
    (hne : name ≠ "") (hlen : name.length ≤ 50)
    (hpat : validation.matchesNamePattern name = true)
    (hres : validation.toLowercase name ∈ validation.reservedNames) :
    validation.validate_project_name name =
      .error (.InvalidProjectName name
        ("\x27" ++ name ++ "\x27 is a reserved word")) := by
  have h1 : name.isEmpty = false := (isEmpty_false_iff name).2 hne
  have h2 : ¬ name.utf8ByteSize > 50 := by
    rw [utf8ByteSize_eq_length_of_matches hpat]
    omega
  have h4 : validation.reservedNames.contains (validation.toLowercase name) = true := by
    rw [show validation.reservedNames.contains (validation.toLowercase name) =
      validation.reservedNames.elem (validation.toLowercase name) from rfl, List.elem_iff]
    exact hres
  unfold validation.validate_project_name
  simp [h1, h2, hpat, h4]
  exact hres

/-- Witness for C9 at the concrete reserved name Test (case-insensitive
match of the reserved word test). -/
theorem validate_project_name_reserved_witness :
    validation.validate_project_name "Test" =
      .error (.InvalidProjectName "Test" "\x27Test\x27 is a reserved word") :=
  validate_project_name_reserved "Test" (by decide) (by decide) (by decide)
    (by decide)

/-- C7: validate_python_version succeeds exactly when the version
string starts with one of the five supported prefixes, and on the two
concrete examples of the spec it accepts 3.11.2 and rejects 2.7 with
UnsupportedPythonVersion carrying 2.7. -/
theorem validate_python_version_spec :
    (∀ v : String,
        validation.validate_python_version v = .ok () ↔
          (validation.startsWith v "3.8" = true ∨
           validation.startsWith v "3.9" = true ∨
           validation.startsWith v "3.10" = true ∨
           validation.startsWith v "3.11" = true ∨
           validation.startsWith v "3.12" = true)) ∧
    validation.validate_python_version "3.11.2" = .ok () ∧
    validation.validate_python_version "2.7" =
      .error (.UnsupportedPythonVersion "2.7") := by
  refine ⟨?_, rfl, rfl⟩
  intro v
  unfold validation.validate_python_version
  by_cases h : validation.valid_versions.any (fun p => validation.startsWith v p)
  · simp only [h, if_true]
    simpa [validation.valid_versions] using h
  · simp only [h, if_false]
    constructor
    · intro he
      simp at he
    · intro hd
      exact absurd (by simpa [validation.valid_versions] using hd) h

/-- C8: over any state of the current directory, ensure_python_project
succeeds exactly when one of the four marker paths exists, and any
failure is the NotAPythonProject error. The embedding passes the
directory as a pure existence predicate, so file contents cannot be
inspected. -/
theorem ensure_python_project_spec :
    (∀ pathExists : String → Bool,
        validation.ensure_python_project pathExists = .ok () ↔
          (pathExists "setup.py" = true ∨ pathExists "pyproject.toml" = true ∨
           pathExists "requirements.txt" = true ∨
           pathExists "Pipfile" = true)) ∧
    (∀ pathExists : String → Bool,
        validation.ensure_python_project pathExists ≠ .ok () →
          validation.ensure_python_project pathExists =
            .error .NotAPythonProject) := by
  constructor
  · intro pathExists
    unfold validation.ensure_python_project
    by_cases h : validation.pythonProjectIndicators.any pathExists
    · simp only [h, if_true]
      simpa [validation.pythonProjectIndicators] using h
    · simp only [h, if_false]
      constructor
      · intro he
        simp at he
      · intro hd
        exact absurd (by simpa [validation.pythonProjectIndicators] using hd) h
  · intro pathExists h
    by_cases hany : validation.pythonProjectIndicators.any pathExists
    · exfalso
      apply h
      unfold validation.ensure_python_project
      simp [hany]
    · unfold validation.ensure_python_project
      simp [hany]

/-- C3: for a name that passes validation, init succeeds exactly when
no filesystem entry with that name exists in the current directory; on
a collision it fails with ProjectAlreadyExists carrying the given name
in both the name and the path field, an error whose exit code is 1. -/
theorem initRun_collision_spec (name : String) (template : Option String)
    (pathExists : String → Bool)
    (hval : validation.validate_project_name name = .ok ()) :
    (pathExists name = false →
      (initRun name template pathExists).result = .ok ()) ∧
    (pathExists name = true →
      (initRun name template pathExists).result =
        .error (.ProjectAlreadyExists name name) ∧
      (PyForgeError.ProjectAlreadyExists name name).exit_code = 1) := by
  unfold initRun
  rw [hval]
  constructor
  · intro h
    simp [h]
  · intro h
    exact ⟨by simp [h], rfl⟩

/-- Witness for C3 at the valid name my_project, once with the entry
absent and once with it present. -/
theorem initRun_collision_spec_witness :
    ((initRun "my_project" none (fun _ => false)).result = .ok ()) ∧
    ((initRun "my_project" none (fun _ => true)).result =
        .error (.ProjectAlreadyExists "my_project" "my_project") ∧
      (PyForgeError.ProjectAlreadyExists "my_project" "my_project").exit_code = 1) :=
  ⟨(initRun_collision_spec "my_project" none (fun _ => false) rfl).1 rfl,
   (initRun_collision_spec "my_project" none (fun _ => true) rfl).2 rfl⟩

/-- C5: on every invocation of init, with any name, template and
directory state, the first two stdout lines are the two
success-sounding lines, printed before validation or the existence
check can fail; in particular stdout is never empty, also when the run
returns an error. -/
theorem initRun_prints_before_checks :
    ∀ (name : String) (template : Option String) (pathExists : String → Bool),
      ((initRun name template pathExists).stdout.take 2 =
        ["🚀 Creating project: " ++ name, "Project created successfully"]) ∧
      (initRun name template pathExists).stdout ≠ [] := by
  intro name template pathExists
  unfold initRun
  cases hval : validation.validate_project_name name with
  | error e => exact ⟨rfl, by simp⟩
  | ok u =>
      cases u
      by_cases h : pathExists name <;> simp [h]

/-- C6: the From conversions into the taxonomy: an io NotFound becomes
FileError with the not-found message and the original error attached as
source; an io PermissionDenied becomes PermissionDenied with the path
hard-coded to the placeholder unknown; every other io kind becomes the
generic FileError with the original error attached; reqwest errors
become NetworkError; JSON and TOML parse failures become ParseError
tagged JSON and TOML. -/
theorem from_conversions_spec :
    (∀ d, fromIoError ⟨.notFound, d⟩ =
        .FileError "File or directory not found" (some ⟨.notFound, d⟩)) ∧
    (∀ d, fromIoError ⟨.permissionDenied, d⟩ =
        .PermissionDenied "unknown" "Permission denied") ∧
    (∀ tag d, fromIoError ⟨.otherKind tag, d⟩ =
        .FileError "I/O error" (some ⟨.otherKind tag, d⟩)) ∧
    (∀ e : ReqwestError, fromReqwestError e =
        .NetworkError "HTTP connection error" (some e)) ∧
    (∀ e : SerdeJsonError, fromSerdeJsonError e = .ParseError "JSON" e.message) ∧
    (∀ e : TomlDeError, fromTomlDeError e = .ParseError "TOML" e.message) :=
  ⟨fun _ => rfl, fun _ => rfl, fun _ _ => rfl, fun _ => rfl, fun _ => rfl,
   fun _ => rfl⟩

theorem causedByLines_eq_map (d : DynError) :
    d.causedByLines = d.chainMessages.map (fun m => "  - " ++ m) := by
  induction d with
  | leaf m => rfl
  | node m e ih => simp [DynError.causedByLines, DynError.chainMessages, ih]

/-- C4 counterexample: at an error with a depth-two source chain, the
lines display_error prints list the direct cause first and the root
cause (the innermost construction) last, not the claimed
innermost-construction-first order. -/
theorem display_error_not_innermost_first :
    (PyForgeError.InvalidConfig "config.toml"
        (.node "outer cause" (.leaf "root cause"))).hasBespokeGuidance = false ∧
    (PyForgeError.InvalidConfig "config.toml"
        (.node "outer cause" (.leaf "root cause"))).sourceChain ≠ [] ∧
    (PyForgeError.InvalidConfig "config.toml"
        (.node "outer cause" (.leaf "root cause"))).display_error =
      ["❌ Error: Invalid configuration file: config.toml", "Caused by:",
       "  - outer cause", "  - root cause"] ∧
    (PyForgeError.InvalidConfig "config.toml"
        (.node "outer cause" (.leaf "root cause"))).display_error ≠
      renderChainInnermostFirst
        (PyForgeError.InvalidConfig "config.toml"
          (.node "outer cause" (.leaf "root cause"))) :=
  ⟨rfl, by decide, by decide, by decide⟩

/-- C4 (amended): for every variant without bespoke guidance whose
causal source chain is non-empty, display_error prints the generic
error line, the Caused by: header, and one line per error of the chain
in order from the direct (outermost) cause inward, ending at the root
cause, until the chain is exhausted. -/
theorem display_error_generic_chain (e : PyForgeError)
    (hb : e.hasBespokeGuidance = false) (hc : e.sourceChain ≠ []) :
    e.display_error =
      ["❌ Error: " ++ e.toMessage, "Caused by:"] ++
        e.sourceChain.map (fun m => "  - " ++ m) := by
  cases e with
  | FileError m s =>
      cases s with
      | none =>
          simp [PyForgeError.sourceChain, PyForgeError.source] at hc
      | some io =>
          simp [PyForgeError.display_error, PyForgeError.sourceChain,
            PyForgeError.source, causedByLines_eq_map]
  | DirectoryNotFound p =>
      simp [PyForgeError.sourceChain, PyForgeError.source] at hc
  | PermissionDenied p r =>
      simp [PyForgeError.sourceChain, PyForgeError.source] at hc
  | ProjectAlreadyExists n p =>
      simp [PyForgeError.hasBespokeGuidance] at hb
  | NotAPythonProject =>
      simp [PyForgeError.hasBespokeGuidance] at hb
  | InvalidConfig f d =>
      simp [PyForgeError.display_error, PyForgeError.sourceChain,
        PyForgeError.source, causedByLines_eq_map]
  | CommandFailed c k =>
      simp [PyForgeError.sourceChain, PyForgeError.source] at hc
  | CommandNotFound c =>
      simp [PyForgeError.hasBespokeGuidance] at hb
  | CommandTimeout c t =>
      simp [PyForgeError.sourceChain, PyForgeError.source] at hc
  | InvalidProjectName n r =>
      simp [PyForgeError.hasBespokeGuidance] at hb
  | UnsupportedPythonVersion v =>
      simp [PyForgeError.sourceChain, PyForgeError.source] at hc
  | TemplateNotFound t =>
      simp [PyForgeError.sourceChain, PyForgeError.source] at hc
  | NetworkError m s =>
      cases s with
      | none =>
          simp [PyForgeError.sourceChain, PyForgeError.source] at hc
      | some r =>
          simp [PyForgeError.display_error, PyForgeError.sourceChain,
            PyForgeError.source, causedByLines_eq_map]
  | DownloadFailed u s =>
      simp [PyForgeError.sourceChain, PyForgeError.source] at hc
  | ParseError t m =>
      simp [PyForgeError.sourceChain, PyForgeError.source] at hc
  | InvalidJson f m =>
      simp [PyForgeError.sourceChain, PyForgeError.source] at hc
  | InvalidToml f m =>
      simp [PyForgeError.sourceChain, PyForgeError.source] at hc
  | Internal m =>
      simp [PyForgeError.sourceChain, PyForgeError.source] at hc
  | UserCancelled =>
      simp [PyForgeError.sourceChain, PyForgeError.source] at hc
  | NotImplemented f =>
      simp [PyForgeError.sourceChain, PyForgeError.source] at hc

/-- Witness for the amended C4 at a FileError wrapping an io error that
itself wraps a root cause. -/
theorem display_error_generic_chain_witness :
    (PyForgeError.FileError "I/O error"
        (some ⟨.otherKind "Other", .node "mid cause" (.leaf "root")⟩)).display_error =
      ["❌ Error: File error: I/O error", "Caused by:", "  - mid cause",
       "  - root"] := by
  have h := display_error_generic_chain
    (PyForgeError.FileError "I/O error"
      (some ⟨.otherKind "Other", .node "mid cause" (.leaf "root")⟩))
    rfl (by decide)
  simpa using h

/-- C1: exit_code implements exactly the fixed mapping UserCancelled to
130, CommandNotFound to 127, PermissionDenied to 126, FileError to 2,
InvalidProjectName to 64, NotAPythonProject to 65, every other variant
to 1; each equation is universally quantified over the variant fields,
so the code depends only on the variant tag, never on field contents. -/
theorem exit_code_fixed_mapping :
    (PyForgeError.UserCancelled.exit_code = 130) ∧
    (∀ c, (PyForgeError.CommandNotFound c).exit_code = 127) ∧
    (∀ p r, (PyForgeError.PermissionDenied p r).exit_code = 126) ∧
    (∀ m s, (PyForgeError.FileError m s).exit_code = 2) ∧
    (∀ n r, (PyForgeError.InvalidProjectName n r).exit_code = 64) ∧
    (PyForgeError.NotAPythonProject.exit_code = 65) ∧
    (∀ p, (PyForgeError.DirectoryNotFound p).exit_code = 1) ∧
    (∀ n p, (PyForgeError.ProjectAlreadyExists n p).exit_code = 1) ∧
    (∀ f s, (PyForgeError.InvalidConfig f s).exit_code = 1) ∧
    (∀ c k, (PyForgeError.CommandFailed c k).exit_code = 1) ∧
    (∀ c t, (PyForgeError.CommandTimeout c t).exit_code = 1) ∧
    (∀ v, (PyForgeError.UnsupportedPythonVersion v).exit_code = 1) ∧
    (∀ t, (PyForgeError.TemplateNotFound t).exit_code = 1) ∧
    (∀ m s, (PyForgeError.NetworkError m s).exit_code = 1) ∧
    (∀ u s, (PyForgeError.DownloadFailed u s).exit_code = 1) ∧
    (∀ t m, (PyForgeError.ParseError t m).exit_code = 1) ∧
    (∀ f m, (PyForgeError.InvalidJson f m).exit_code = 1) ∧
    (∀ f m, (PyForgeError.InvalidToml f m).exit_code = 1) ∧
    (∀ m, (PyForgeError.Internal m).exit_code = 1) ∧
    (∀ f, (PyForgeError.NotImplemented f).exit_code = 1) :=
  ⟨rfl, fun _ => rfl, fun _ _ => rfl, fun _ _ => rfl, fun _ _ => rfl, rfl,
   fun _ => rfl, fun _ _ => rfl, fun _ _ => rfl, fun _ _ => rfl,
   fun _ _ => rfl, fun _ => rfl, fun _ => rfl, fun _ _ => rfl,
   fun _ _ => rfl, fun _ _ => rfl, fun _ _ => rfl, fun _ _ => rfl,
   fun _ => rfl, fun _ => rfl⟩

/-- C10: is_recoverable returns true exactly for NetworkError,
CommandTimeout and UserCancelled, and false for each of the other
sixteen variants, independently of field contents. -/
theorem is_recoverable_exactly_three :
    (∀ m s, (PyForgeError.NetworkError m s).is_recoverable = true) ∧
    (∀ c t, (PyForgeError.CommandTimeout c t).is_recoverable = true) ∧
    (PyForgeError.UserCancelled.is_recoverable = true) ∧
    (∀ m s, (PyForgeError.FileError m s).is_recoverable = false) ∧
    (∀ p, (PyForgeError.DirectoryNotFound p).is_recoverable = false) ∧
    (∀ p r, (PyForgeError.PermissionDenied p r).is_recoverable = false) ∧
    (∀ n p, (PyForgeError.ProjectAlreadyExists n p).is_recoverable = false) ∧
    (PyForgeError.NotAPythonProject.is_recoverable = false) ∧
    (∀ f s, (PyForgeError.InvalidConfig f s).is_recoverable = false) ∧
    (∀ c k, (PyForgeError.CommandFailed c k).is_recoverable = false) ∧
    (∀ c, (PyForgeError.CommandNotFound c).is_recoverable = false) ∧
    (∀ n r, (PyForgeError.InvalidProjectName n r).is_recoverable = false) ∧
    (∀ v, (PyForgeError.UnsupportedPythonVersion v).is_recoverable = false) ∧
    (∀ t, (PyForgeError.TemplateNotFound t).is_recoverable = false) ∧
    (∀ u s, (PyForgeError.DownloadFailed u s).is_recoverable = false) ∧
    (∀ t m, (PyForgeError.ParseError t m).is_recoverable = false) ∧
    (∀ f m, (PyForgeError.InvalidJson f m).is_recoverable = false) ∧
    (∀ f m, (PyForgeError.InvalidToml f m).is_recoverable = false) ∧
    (∀ m, (PyForgeError.Internal m).is_recoverable = false) ∧
    (∀ f, (PyForgeError.NotImplemented f).is_recoverable = false) :=
  ⟨fun _ _ => rfl, fun _ _ => rfl, rfl, fun _ _ => rfl, fun _ => rfl,
   fun _ _ => rfl, fun _ _ => rfl, rfl, fun _ _ => rfl, fun _ _ => rfl,
   fun _ => rfl, fun _ _ => rfl, fun _ => rfl, fun _ => rfl,
   fun _ _ => rfl, fun _ _ => rfl, fun _ _ => rfl, fun _ _ => rfl,
   fun _ => rfl, fun _ => rfl⟩

end PyForge
